import Mathlib

/-!
Verification development for the download handler of the stc telegram bot
(src/tgbot/handlers/download.py). The async orchestration is shallowly
embedded: every call to an external collaborator (database cache, telethon
client cache, ipfs stream, telethon send_file / send_message /
delete_messages, event.answer, remove_button) is resolved by an
environment record that fixes the outcome of that call, and the embedded
functions return the list of observable effects (a trace of events)
together with the terminal outcome. Exceptions are values of an error
taxonomy; the tenacity retry decorators are embedded as a bounded retry
loop. Library code that is not part of src/ (safe_execution,
LongTask.schedule and LongTask.external_cancel, the ProgressBar message
field semantics) is modelled from the spec, as documented on each
definition concerned.
-/

namespace Stc

/-- Error taxonomy of the exceptions visible in src/tgbot/handlers/download.py.
serviceUnavailable is aiobaseclient ServiceUnavailableError (a subclass of
TemporaryError), temporary is any other aiobaseclient TemporaryError,
downloadError is tgbot.app.exceptions.DownloadError, progressLost is
ProgressBarLostMessageError, cancelled is asyncio.CancelledError (a
BaseException, not an Exception), rpcTimeout is telethon
rpcerrorlist.TimeoutError, valueError is ValueError, and other stands for
any other Exception. -/
inductive Err where
| serviceUnavailable
| temporary
| downloadError
| progressLost
| cancelled
| rpcTimeout
| valueError
| other
deriving DecidableEq, Repr

/-- Retry predicate of the download_document decorator (line 36):
retry_if_exception_type(TemporaryError). ServiceUnavailableError is a
subclass of TemporaryError, so both are retried. -/
def isTemporary : Err → Bool
| .serviceUnavailable => true
| .temporary => true
| _ => false

/-- Retry predicate of the send_file decorator (line 169):
retry_if_exception_type((rpcerrorlist.TimeoutError, ValueError)). -/
def isSendRetryable : Err → Bool
| .rpcTimeout => true
| .valueError => true
| _ => false

/-- Exceptions caught by the except clause at line 137:
except (ServiceUnavailableError, DownloadError). A plain TemporaryError is
the superclass of ServiceUnavailableError and is not caught there. -/
def isFetchHandled : Err → Bool
| .serviceUnavailable => true
| .downloadError => true
| _ => false

/-- Observable effects of the embedded code. Each constructor marks one
outbound call or one logged fact: fetchAttempt i is the i-th entry into the
download_document body (statbox do_request + show_banner + ipfs stream),
wait s is a tenacity fixed wait of s seconds, sendCached is the send_file
call with a cached telegram file id (line 69), mkProgressBar is a
ProgressBar construction (lines 83 and 106), sendFileBytes i is the i-th
attempt of the send_file upload of fetched bytes (line 116), putCache is
database.put_cached_file (line 122), respondNotFound is the
respond_not_found message (line 133), notifyMaintenance is the MAINTENANCE
message of _on_fail (lines 55 to 62), errorLogged e is an error_log call,
deleteMessages is delete_messages on the progress message (line 150),
deregister is the removal of the task from the user_manager registry,
answerAlready / answerTooMany are event.answer calls of the handler (lines
227 and 234), removeButton is remove_button, checkLimits is the
user_manager.hit_limits call (line 232), and scheduleTask is
DownloadTask(...).schedule() (line 238). -/
inductive Event where
| fetchAttempt (i : Nat)
| wait (s : Nat)
| sendCached
| mkProgressBar
| sendFileBytes (i : Nat)
| putCache
| respondNotFound
| notifyMaintenance
| errorLogged (e : Err)
| deleteMessages
| deregister
| answerAlready
| answerTooMany
| removeButton
| checkLimits
| scheduleTask
deriving DecidableEq, Repr

/-- Terminal outcome of one DownloadTask.long_task run. cachedDelivered is
the statbox cache_hit return (line 74), uploaded is the statbox uploaded
path (line 123), notFound the statbox not_found path (line 129), failed the
maintenance-notification path, userCanceled the ProgressBarLostMessageError
path (line 139), canceled the asyncio.CancelledError path (line 144). -/
inductive Outcome where
| cachedDelivered
| uploaded
| notFound
| failed
| userCanceled
| canceled
deriving DecidableEq, Repr

/-- Embedding of the tenacity retry loop used by both decorated methods:
stop_after_attempt bounds the attempts, a failure satisfying the retry
predicate p waits (emitting the events w, empty when no wait is
configured) and retries, any other failure and the final attempt
propagate the original exception unchanged (reraise=True). The attempt
with index i is run with r retries still allowed after it; attemptEv i is
the trace event of the i-th attempt and f i its outcome. -/
def retryRun {α : Type} (p : Err → Bool) (w : List Event) (attemptEv : Nat → Event)
    (f : Nat → Except Err α) : Nat → Nat → List Event × Except Err α
| i, 0 => ([attemptEv i], f i)
| i, r + 1 =>
  match f i with
  | .ok a => ([attemptEv i], .ok a)
  | .error e =>
    if p e then
      let rest := retryRun p w attemptEv f (i + 1) r
      (attemptEv i :: (w ++ rest.1), rest.2)
    else
      ([attemptEv i], .error e)

/-- Outcome of one entry into the download_document body (lines 39 to 50):
bannerShown records whether progress_bar.show_banner succeeded during the
attempt (so that a progress message exists afterwards), and result is
either the list of chunks streamed by ipfs_http_client.get_iter (each
chunk a list of byte values) or the exception the attempt raised
(from show_banner, from the stream, or from progress_bar.callback). -/
structure FetchAttempt where
  bannerShown : Bool
  result : Except Err (List (List Nat))
deriving Repr

/-- Environment of one DownloadTask.long_task run: the outcome of every
external call the task can make, in source order. dbCachedFile is
database.get_cached_file (line 64), clientCachedFile is
get_cached_file_id (line 66), sendCachedResult is the send_file call with
the cached id (line 69), attempt i is the i-th download_document attempt,
upload i is the i-th attempt of the send_file upload (line 116),
putCacheResult is put_cached_file (line 122), notFoundResult is
respond_not_found (line 133), notifyResult is the MAINTENANCE send_message
of _on_fail (line 56), deleteResult is delete_messages (line 150). -/
structure TaskEnv where
  dbCachedFile : Option Nat
  clientCachedFile : Option Nat
  sendCachedResult : Except Err Unit
  attempt : Nat → FetchAttempt
  upload : Nat → Except Err Nat
  putCacheResult : Except Err Unit
  notFoundResult : Except Err Unit
  notifyResult : Except Err Unit
  deleteResult : Except Err Unit

/-- Cache lookup of lines 64 to 66: the durable database cache first, the
client-side id cache only when the first returned nothing. -/
def cachedFileId (env : TaskEnv) : Option Nat :=
  match env.dbCachedFile with
  | some f => some f
  | none => env.clientCachedFile

/-- Embedding of download_document (lines 33 to 50) together with its
tenacity decorator: stop_after_attempt(3), wait_fixed(5.0),
retry_if_exception_type(TemporaryError), reraise=True. On success the
streamed chunks are concatenated into one byte string (bytes(collected)). -/
def fetchPhase (env : TaskEnv) : List Event × Except Err (List Nat) :=
  let r := retryRun isTemporary [Event.wait 5] Event.fetchAttempt
    (fun i => (env.attempt i).result) 0 2
  (r.1, r.2.map List.flatten)

/-- Embedding of the send_file upload of the fetched bytes (line 116)
together with the send_file tenacity decorator (lines 166 to 170):
stop_after_attempt(3), retry on (rpcerrorlist.TimeoutError, ValueError),
no configured wait, reraise=True. -/
def uploadPhase (env : TaskEnv) : List Event × Except Err Nat :=
  retryRun isSendRetryable [] Event.sendFileBytes env.upload 0 2

/-- True when an event is a download_document attempt. -/
def isFetchAttemptEv : Event → Bool
| .fetchAttempt _ => true
| _ => false

/-- True when an event is a tenacity wait. -/
def isWaitEv : Event → Bool
| .wait _ => true
| _ => false

/-- Number of download_document attempts a run makes. -/
def fetchAttemptsMade (env : TaskEnv) : Nat :=
  List.countP isFetchAttemptEv (fetchPhase env).1

/-- Modelled from the spec: the ProgressBar class is not under src/. Per
spec section 4.2 show() sends the banner message and stores its reference,
so the download ProgressBar holds a message reference exactly when
show_banner succeeded during some executed attempt. -/
def bannerEverShown (env : TaskEnv) : Bool :=
  (List.range (fetchAttemptsMade env)).any (fun i => (env.attempt i).bannerShown)

/-- Modelled from the spec: the ProgressBar class is not under src/. Per
spec section 3 the UI-message reference is nulled when the message is
deleted or lost, so after the download phase the reference of
progress_bar_download is live exactly when a banner was shown and the
phase did not end with the lost-message signal. -/
def msgLiveAfterFetch (env : TaskEnv) : Bool :=
  bannerEverShown env &&
    (match (fetchPhase env).2 with
     | .error .progressLost => false
     | _ => true)

/-- Embedding of the finally block (lines 146 to 154): delete_messages is
called exactly when filter_none([progress_bar_download.message]) is
nonempty; the call is wrapped in its own safe_execution, so an Exception
from it is logged and swallowed, while asyncio.CancelledError (a
BaseException) escapes — the Bool records that escape. The swallowing
safe_execution itself is modelled from the spec (cleanup-phase failures
are logged and swallowed, section 7), being library code not under src/. -/
def cleanupRun (env : TaskEnv) : List Event × Bool :=
  if msgLiveAfterFetch env then
    match env.deleteResult with
    | .ok _ => ([Event.deleteMessages], false)
    | .error .cancelled => ([Event.deleteMessages], true)
    | .error e => ([Event.deleteMessages, Event.errorLogged e], false)
  else ([], false)

/-- Modelled from the spec: LongTask.external_cancel is not under src/.
Per spec section 4.5 step 5, a backend-unavailable or fetch domain error
transitions the task to FAILED and notifies the requester with the
maintenance message of _on_fail (lines 55 to 62), and that notification
must not raise: its own failures are swallowed and logged. -/
def externalCancelNotify (env : TaskEnv) : List Event :=
  match env.notifyResult with
  | .ok _ => [Event.notifyMaintenance]
  | .error e => [Event.notifyMaintenance, Event.errorLogged e]

/-- Embedding of the try body (lines 93 to 136): run the fetch phase; on
success branch on the Python truthiness of the returned bytes (if file:),
an empty byte string taking the not_found branch; otherwise construct the
upload ProgressBar, upload, and write the cache. The result is the
terminal outcome of the body or the exception escaping it. -/
def innerTry (env : TaskEnv) : List Event × Except Err Outcome :=
  match (fetchPhase env).2 with
  | .error e => ((fetchPhase env).1, .error e)
  | .ok bs =>
    if bs.isEmpty then
      match env.notFoundResult with
      | .ok _ => ((fetchPhase env).1 ++ [Event.respondNotFound], .ok Outcome.notFound)
      | .error e => ((fetchPhase env).1 ++ [Event.respondNotFound], .error e)
    else
      match (uploadPhase env).2 with
      | .error e =>
        ((fetchPhase env).1 ++ Event.mkProgressBar :: (uploadPhase env).1, .error e)
      | .ok _ =>
        match env.putCacheResult with
        | .ok _ =>
          ((fetchPhase env).1 ++ Event.mkProgressBar :: (uploadPhase env).1
            ++ [Event.putCache], .ok Outcome.uploaded)
        | .error e =>
          ((fetchPhase env).1 ++ Event.mkProgressBar :: (uploadPhase env).1
            ++ [Event.putCache], .error e)

/-- Terminal outcome of the cache-miss body of long_task, as routed by the
except clauses of lines 137 to 145: ServiceUnavailableError and
DownloadError go to external_cancel (FAILED per the spec model),
ProgressBarLostMessageError to the silent user_canceled statbox,
asyncio.CancelledError to the canceled statbox; every other exception
escapes to the surrounding safe_execution, which is modelled from the spec
(library code not under src/): it logs the error and runs _on_fail, whose
own Exception failures are swallowed and logged, while a CancelledError
raised by _on_fail passes through it, ending the task canceled. The flag
argument records a CancelledError escaping the finally block, which
replaces any in-flight outcome. -/
def missOutcome (env : TaskEnv) (cleanupCancelled : Bool) : Outcome :=
  match (innerTry env).2 with
  | .ok oc => if cleanupCancelled then Outcome.canceled else oc
  | .error e =>
    if isFetchHandled e then
      if cleanupCancelled then Outcome.canceled else Outcome.failed
    else if e = Err.progressLost then
      if cleanupCancelled then Outcome.canceled else Outcome.userCanceled
    else if e = Err.cancelled then Outcome.canceled
    else if cleanupCancelled then Outcome.canceled
    else
      match env.notifyResult with
      | .error .cancelled => Outcome.canceled
      | _ => Outcome.failed

/-- Event trace of the cache-miss body of long_task (lines 77 to 154): the
download ProgressBar construction (line 83), the try body, then for the
caught exceptions the handler effects (the external_cancel notification
runs in its except clause, before the finally block), then the finally
cleanup; for an exception escaping the try, the finally cleanup runs
first and then the surrounding safe_execution logs the error and runs the
_on_fail notification, unless the finally block itself was cancelled. -/
def missTrace (env : TaskEnv) : List Event :=
  match (innerTry env).2 with
  | .ok _ => Event.mkProgressBar :: (innerTry env).1 ++ (cleanupRun env).1
  | .error e =>
    if isFetchHandled e then
      Event.mkProgressBar :: (innerTry env).1 ++ externalCancelNotify env
        ++ (cleanupRun env).1
    else if e = Err.progressLost then
      Event.mkProgressBar :: (innerTry env).1 ++ (cleanupRun env).1
    else if e = Err.cancelled then
      Event.mkProgressBar :: (innerTry env).1 ++ (cleanupRun env).1
    else if (cleanupRun env).2 then
      Event.mkProgressBar :: (innerTry env).1 ++ (cleanupRun env).1
    else
      Event.mkProgressBar :: (innerTry env).1 ++ (cleanupRun env).1
        ++ Event.errorLogged e ::
          (match env.notifyResult with
           | .ok _ => [Event.notifyMaintenance]
           | .error .cancelled => [Event.notifyMaintenance]
           | .error x => [Event.notifyMaintenance, Event.errorLogged x])

/-- Embedding of the cache-miss body of long_task: trace and outcome. -/
def missPath (env : TaskEnv) : List Event × Outcome :=
  (missTrace env, missOutcome env (cleanupRun env).2)

/-- Embedding of long_task (lines 52 to 154). The cache-hit branch (lines
67 to 75) sends the cached file id inside a safe_execution that is
modelled from the spec (library code not under src/): when send_file
raises an Exception it is logged and swallowed, so the return inside the
with block is skipped and control falls through to the cache-miss body;
an asyncio.CancelledError is a BaseException and escapes, ending the
task canceled. -/
def longTask (env : TaskEnv) : List Event × Outcome :=
  match cachedFileId env with
  | some _ =>
    (match env.sendCachedResult with
     | .ok _ => ([Event.sendCached], Outcome.cachedDelivered)
     | .error .cancelled => ([Event.sendCached], Outcome.canceled)
     | .error e =>
       let m := missPath env
       (Event.sendCached :: Event.errorLogged e :: m.1, m.2))
  | none => missPath env

/-- Modelled from the spec: LongTask.schedule and the registry
deregistration are not under src/. Per spec section 3 the TaskKey registry
entry is removed at task termination in any terminal state, so the task
wrapper appends exactly one deregistration after long_task ends. -/
def runTask (env : TaskEnv) : List Event × Outcome :=
  let m := longTask env
  (m.1 ++ [Event.deregister], m.2)

/-- Constructor arguments of the ProgressBar instances of long_task, as
far as the claims observe them: the UI message reference, the banner and
header and tail_text labels, the source label, the throttle interval and
the throttle clock (last_call). The message default is none, per the spec
model of the ProgressBar class (not under src/). -/
structure ProgressBar where
  message : Option Nat
  banner : String
  header : String
  tailText : String
  source : Option String
  throttleSecs : Nat
  lastCall : Nat
deriving DecidableEq, Repr

/-- The download-phase ProgressBar construction (lines 83 to 92):
banner LOOKING_AT, header with the filename, tail_text TRANSMITTED_FROM,
source IPFS, throttle_secs 3, last_call = start_time, no message passed. -/
def mkDownloadBar (filename : String) (startTime : Nat) : ProgressBar :=
  { message := none
    banner := "LOOKING_AT"
    header := "⬇️ " ++ filename
    tailText := "TRANSMITTED_FROM"
    source := some "IPFS"
    throttleSecs := 3
    lastCall := startTime }

/-- The upload-phase ProgressBar construction (lines 106 to 115): it is
passed message = progress_bar_download.message and
last_call = progress_bar_download.last_call, tail_text
UPLOADED_TO_TELEGRAM, no source, same banner and header and throttle. -/
def mkUploadBar (pbDown : ProgressBar) (filename : String) : ProgressBar :=
  { message := pbDown.message
    banner := "LOOKING_AT"
    header := "⬇️ " ++ filename
    tailText := "UPLOADED_TO_TELEGRAM"
    source := none
    throttleSecs := 3
    lastCall := pbDown.lastCall }

/-- Modelled from the spec: spec section 4.2 states the chained
upload-phase reporter reuses the same UI message reference but resets the
phase-specific labels and the throttle clock, so its last_call starts at
the construction-time clock value now instead of the inherited one. This
definition follows the spec words, for comparison with mkUploadBar. -/
def mkUploadBarSpec (pbDown : ProgressBar) (filename : String) (now : Nat) : ProgressBar :=
  { message := pbDown.message
    banner := "LOOKING_AT"
    header := "⬇️ " ++ filename
    tailText := "UPLOADED_TO_TELEGRAM"
    source := none
    throttleSecs := 3
    lastCall := now }

/-- Environment of one DownloadHandler.handler run (lines 220 to 242):
hasTask is user_manager.has_task (line 225), hitLimits is
user_manager.hit_limits (line 232), answerDupResult and
removeBtnDupResult are the event.answer and remove_button calls of the
duplicate branch (lines 227 and 230), answerLimitResult is the
event.answer of the rate-limit branch (line 234), removeBtnResult is the
unguarded remove_button at line 237. -/
structure HandlerEnv where
  hasTask : Bool
  hitLimits : Bool
  answerDupResult : Except Err Unit
  removeBtnDupResult : Except Err Unit
  answerLimitResult : Except Err Unit
  removeBtnResult : Except Err Unit

/-- Embedding of lines 237 to 242: the unguarded remove_button, then the
construction and scheduling of a DownloadTask. The Bool result records
whether a task was scheduled; a remove_button failure propagates out of
the handler. -/
def handlerSchedule (env : HandlerEnv) : List Event × Except Err Bool :=
  match env.removeBtnResult with
  | .error e => ([Event.removeButton], .error e)
  | .ok _ => ([Event.removeButton, Event.scheduleTask], .ok true)

/-- Embedding of lines 232 to 242: the hit_limits check; when limits are
hit, event.answer(TOO_MANY_DOWNLOADS) runs inside a safe_execution that is
modelled from the spec (library code not under src/, failures swallowed
without logging), so when that answer raises the return is skipped and
control falls through to the scheduling tail. -/
def handlerLimits (env : HandlerEnv) : List Event × Except Err Bool :=
  if env.hitLimits then
    match env.answerLimitResult with
    | .ok _ => ([Event.checkLimits, Event.answerTooMany], .ok false)
    | .error _ =>
      let s := handlerSchedule env
      (Event.checkLimits :: Event.answerTooMany :: s.1, s.2)
  else
    let s := handlerSchedule env
    (Event.checkLimits :: s.1, s.2)

/-- Embedding of DownloadHandler.handler from the has_task check on (lines
225 to 242). In the duplicate branch the answer and remove_button calls
run inside a safe_execution that is modelled from the spec (library code
not under src/, failures swallowed without logging), so a failure of
either call skips the return and control falls through to the rate-limit
check and the scheduling tail. -/
def handler (env : HandlerEnv) : List Event × Except Err Bool :=
  if env.hasTask then
    match env.answerDupResult with
    | .error _ =>
      let s := handlerLimits env
      (Event.answerAlready :: s.1, s.2)
    | .ok _ =>
      match env.removeBtnDupResult with
      | .error _ =>
        let s := handlerLimits env
        (Event.answerAlready :: Event.removeButton :: s.1, s.2)
      | .ok _ => ([Event.answerAlready, Event.removeButton], .ok false)
  else handlerLimits env

/-- True when an event is the registry deregistration. -/
def isDeregisterEv : Event → Bool
| .deregister => true
| _ => false

/-- True when an event is the delete_messages cleanup call. -/
def isDeleteEv : Event → Bool
| .deleteMessages => true
| _ => false

/-- True when an event is the MAINTENANCE notification. -/
def isNotifyEv : Event → Bool
| .notifyMaintenance => true
| _ => false

/-- True when the run of long_task enters the cache-miss body: either
there is no cached file id, or there is one but its delivery raised an
Exception, which the surrounding safe_execution swallows so that control
falls through past the skipped return (a CancelledError instead escapes
and ends the task before the miss body). -/
def wentMiss (env : TaskEnv) : Bool :=
  match cachedFileId env, env.sendCachedResult with
  | some _, .ok _ => false
  | some _, .error .cancelled => false
  | some _, .error _ => true
  | none, _ => true

/-- Baseline environment for concrete runs: no cached file, every external
call succeeds, the stream yields two chunks. -/
def baseEnv : TaskEnv :=
  { dbCachedFile := none
    clientCachedFile := none
    sendCachedResult := .ok ()
    attempt := fun _ => { bannerShown := true, result := .ok [[1, 2], [3]] }
    upload := fun _ => .ok 9
    putCacheResult := .ok ()
    notFoundResult := .ok ()
    notifyResult := .ok ()
    deleteResult := .ok () }

/-- Concrete environment for claim C1: cache miss, first fetch attempt
raises DownloadError (a permanent domain error), the maintenance
notification itself fails with a generic Exception. -/
def envC1w : TaskEnv :=
  { baseEnv with
    attempt := fun _ => { bannerShown := true, result := .error .downloadError }
    notifyResult := .error .other }

/-- Concrete environment for claim C2: cache miss, the backend stream
terminates after zero chunks without error. -/
def envC2a : TaskEnv :=
  { baseEnv with attempt := fun _ => { bannerShown := true, result := .ok [] } }

/-- Concrete environment for claim C2: cache miss, the backend stream
yields one chunk of zero bytes without error — a zero-length valid
document. -/
def envC2b : TaskEnv :=
  { baseEnv with attempt := fun _ => { bannerShown := true, result := .ok [[]] } }

/-- Concrete download-phase ProgressBar state for claim C3: banner shown
(message reference 1), throttle clock still at the start time 2, while the
upload-phase constructor runs at clock value 100. -/
def pbC3 : ProgressBar :=
  { mkDownloadBar "f" 2 with message := some 1 }

/-- Concrete environment for claim C5: cache hit in the durable store,
cached delivery succeeds. -/
def envC5w : TaskEnv :=
  { baseEnv with dbCachedFile := some 7 }

/-- Concrete environment for the claim C5 counterexample: cache hit in the
durable store, cached delivery raises a generic Exception. -/
def envC5x : TaskEnv :=
  { baseEnv with dbCachedFile := some 7, sendCachedResult := .error .other }

/-- Concrete environment for claim C6: cache miss, the first fetch attempt
raises ServiceUnavailableError (transient), the second succeeds. -/
def envC6w : TaskEnv :=
  { baseEnv with
    attempt := fun i =>
      if i = 0 then { bannerShown := true, result := .error .serviceUnavailable }
      else { bannerShown := true, result := .ok [[4]] } }

/-- Concrete environment for claim C7: cache miss, the first fetch attempt
raises ProgressBarLostMessageError. -/
def envC7w : TaskEnv :=
  { baseEnv with
    attempt := fun _ => { bannerShown := true, result := .error .progressLost } }

/-- Concrete environment for the claim C10 counterexample: cache hit in
the client-side id cache, cached delivery raises a generic Exception, the
subsequent fetch and upload succeed. -/
def envC10x : TaskEnv :=
  { baseEnv with clientCachedFile := some 3, sendCachedResult := .error .other }

/-- Concrete handler environment for the claim C8 counterexample: a live
duplicate task, the duplicate answer raises, limits not hit. -/
def hEnvC8x : HandlerEnv :=
  { hasTask := true
    hitLimits := false
    answerDupResult := .error .other
    removeBtnDupResult := .ok ()
    answerLimitResult := .ok ()
    removeBtnResult := .ok () }

/-- Concrete handler environment for the claim C8 witness: a live
duplicate task and a rate-limited user, every interaction call succeeds. -/
def hEnvC8w : HandlerEnv :=
  { hasTask := true
    hitLimits := true
    answerDupResult := .ok ()
    removeBtnDupResult := .ok ()
    answerLimitResult := .ok ()
    removeBtnResult := .ok () }

/-- Concrete handler environment for the claim C9 counterexample: a live
duplicate task, a rate-limited user, the duplicate answer raises and the
rate-limit answer succeeds. -/
def hEnvC9x : HandlerEnv :=
  { hasTask := true
    hitLimits := true
    answerDupResult := .error .other
    removeBtnDupResult := .ok ()
    answerLimitResult := .ok ()
    removeBtnResult := .ok () }

/-- Concrete handler environment for the claim C9 witness: a live
duplicate task and a rate-limited user, the duplicate branch succeeds. -/
def hEnvC9w : HandlerEnv :=
  { hasTask := true
    hitLimits := true
    answerDupResult := .ok ()
    removeBtnDupResult := .ok ()
    answerLimitResult := .ok ()
    removeBtnResult := .ok () }

/-- Every event of a retryRun trace is either an attempt event or one of
the configured wait events. -/
theorem retryRun_mem {α : Type} (p : Err → Bool) (w : List Event) (aev : Nat → Event)
    (f : Nat → Except Err α) :
    ∀ r i x, x ∈ (retryRun p w aev f i r).1 → (∃ j, x = aev j) ∨ x ∈ w := by
  intro r
  induction r with
  | zero =>
    intro i x hx
    simp only [retryRun, List.mem_singleton] at hx
    exact Or.inl ⟨i, hx⟩
  | succ r ih =>
    intro i x hx
    simp only [retryRun] at hx
    cases hf : f i with
    | ok a =>
      rw [hf] at hx
      simp only [List.mem_singleton] at hx
      exact Or.inl ⟨i, hx⟩
    | error e =>
      rw [hf] at hx
      by_cases hp : p e
      · simp only [hp, if_true, List.mem_cons, List.mem_append] at hx
        rcases hx with h | h | h
        · exact Or.inl ⟨i, h⟩
        · exact Or.inr h
        · exact ih (i + 1) x h
      · simp [hp] at hx
        exact Or.inl ⟨i, hx⟩

/-- A predicate that holds on no attempt event and no wait event counts
zero over a retryRun trace. -/
theorem retryRun_countP_zero {α : Type} (q : Event → Bool) (p : Err → Bool)
    (w : List Event) (aev : Nat → Event) (f : Nat → Except Err α)
    (hq : ∀ j, q (aev j) = false) (hw : ∀ x ∈ w, q x = false)
    (r i : Nat) : List.countP q (retryRun p w aev f i r).1 = 0 := by
  apply List.countP_eq_zero.mpr
  intro x hx
  rcases retryRun_mem p w aev f r i x hx with ⟨j, rfl⟩ | h
  · simp [hq j]
  · simp [hw x h]

/-- An attempt whose failure does not satisfy the retry predicate makes
retryRun stop at that attempt and propagate the failure unchanged. -/
theorem retryRun_stop {α : Type} (p : Err → Bool) (w : List Event) (aev : Nat → Event)
    (f : Nat → Except Err α) (i r : Nat) (e : Err)
    (hf : f i = .error e) (hp : p e = false) :
    retryRun p w aev f i r = ([aev i], .error e) := by
  cases r with
  | zero => simp [retryRun, hf]
  | succ r => simp [retryRun, hf, hp]

/-- A predicate that is false on every event kind occurring in the try
body counts zero over its trace. -/
theorem innerTry_countP_zero (q : Event → Bool) (env : TaskEnv)
    (h1 : ∀ i, q (Event.fetchAttempt i) = false)
    (h2 : q (Event.wait 5) = false)
    (h3 : ∀ i, q (Event.sendFileBytes i) = false)
    (h4 : q Event.mkProgressBar = false)
    (h5 : q Event.putCache = false)
    (h6 : q Event.respondNotFound = false) :
    List.countP q (innerTry env).1 = 0 := by
  have hf : List.countP q (fetchPhase env).1 = 0 := by
    have h := retryRun_countP_zero q isTemporary [Event.wait 5] Event.fetchAttempt
      (fun i => (env.attempt i).result) h1
      (by intro x hx; simp only [List.mem_singleton] at hx; subst hx; exact h2) 2 0
    simpa [fetchPhase] using h
  have hu : List.countP q (uploadPhase env).1 = 0 := by
    have h := retryRun_countP_zero q isSendRetryable [] Event.sendFileBytes env.upload h3
      (by intro x hx; simp at hx) 2 0
    simpa [uploadPhase] using h
  unfold innerTry
  cases hfe : (fetchPhase env).2 with
  | error e => simpa using hf
  | ok bs =>
    by_cases hbs : bs.isEmpty
    · cases hnf : env.notFoundResult with
      | ok u => simp [hbs, List.countP_append, List.countP_cons, hf, h6]
      | error e => simp [hbs, List.countP_append, List.countP_cons, hf, h6]
    · cases hup : (uploadPhase env).2 with
      | error e => simp [hbs, List.countP_append, List.countP_cons, hf, hu, h4]
      | ok v =>
        cases hpc : env.putCacheResult with
        | ok u => simp [hbs, List.countP_append, List.countP_cons, hf, hu, h4, h5]
        | error e => simp [hbs, List.countP_append, List.countP_cons, hf, hu, h4, h5]

/-- The cleanup block calls delete_messages exactly once when the progress
message reference is live, never otherwise. -/
theorem cleanupRun_countP_delete (env : TaskEnv) :
    List.countP isDeleteEv (cleanupRun env).1
      = if msgLiveAfterFetch env then 1 else 0 := by
  unfold cleanupRun
  by_cases h : msgLiveAfterFetch env
  · simp only [h, if_true]
    cases hd : env.deleteResult with
    | ok u => simp [isDeleteEv]
    | error e => cases e <;> simp [isDeleteEv]
  · simp [h]

/-- A predicate false on the delete and log events counts zero over the
cleanup trace. -/
theorem cleanupRun_countP_zero (q : Event → Bool) (env : TaskEnv)
    (h1 : q Event.deleteMessages = false)
    (h2 : ∀ e, q (Event.errorLogged e) = false) :
    List.countP q (cleanupRun env).1 = 0 := by
  unfold cleanupRun
  by_cases h : msgLiveAfterFetch env
  · simp only [h, if_true]
    cases hd : env.deleteResult with
    | ok u => simp [h1]
    | error e => cases e <;> simp [h1, h2]
  · simp [h]

/-- A predicate false on the notification and log events counts zero over
the external_cancel notification trace. -/
theorem externalCancelNotify_countP_zero (q : Event → Bool) (env : TaskEnv)
    (h1 : q Event.notifyMaintenance = false)
    (h2 : ∀ e, q (Event.errorLogged e) = false) :
    List.countP q (externalCancelNotify env) = 0 := by
  unfold externalCancelNotify
  cases hn : env.notifyResult with
  | ok u => simp [h1]
  | error e => simp [h1, h2]

/-- A predicate false on every event kind of the cache-miss body counts
zero over its trace. -/
theorem missTrace_countP_zero (q : Event → Bool) (env : TaskEnv)
    (h1 : ∀ i, q (Event.fetchAttempt i) = false)
    (h2 : q (Event.wait 5) = false)
    (h3 : ∀ i, q (Event.sendFileBytes i) = false)
    (h4 : q Event.mkProgressBar = false)
    (h5 : q Event.putCache = false)
    (h6 : q Event.respondNotFound = false)
    (h7 : q Event.notifyMaintenance = false)
    (h8 : ∀ e, q (Event.errorLogged e) = false)
    (h9 : q Event.deleteMessages = false) :
    List.countP q (missTrace env) = 0 := by
  have hin := innerTry_countP_zero q env h1 h2 h3 h4 h5 h6
  have hcl := cleanupRun_countP_zero q env h9 h8
  have hnt := externalCancelNotify_countP_zero q env h7 h8
  unfold missTrace
  cases hti : (innerTry env).2 with
  | ok oc => simp [List.countP_append, List.countP_cons, hin, hcl, h4]
  | error e =>
    by_cases hfh : isFetchHandled e
    · simp [hfh, List.countP_append, List.countP_cons, hin, hcl, hnt, h4]
    · by_cases hpl : e = Err.progressLost
      · simp [isFetchHandled, hpl, List.countP_append, List.countP_cons, hin, hcl, h4]
      · by_cases hcc : e = Err.cancelled
        · simp [isFetchHandled, hpl, hcc, List.countP_append, List.countP_cons, hin, hcl, h4]
        · by_cases hfl : (cleanupRun env).2
          · simp [hfh, hpl, hcc, hfl, List.countP_append, List.countP_cons, hin, hcl, h4]
          · cases hn : env.notifyResult with
            | ok u =>
              simp [hfh, hpl, hcc, hfl, List.countP_append, List.countP_cons,
                hin, hcl, h4, h7, h8]
            | error x =>
              cases x <;>
                simp [hfh, hpl, hcc, hfl, List.countP_append, List.countP_cons,
                  hin, hcl, h4, h7, h8]

/-- The cache-miss body calls delete_messages exactly once when the
progress message reference is live, never otherwise. -/
theorem missTrace_countP_delete (env : TaskEnv) :
    List.countP isDeleteEv (missTrace env)
      = if msgLiveAfterFetch env then 1 else 0 := by
  have hin := innerTry_countP_zero isDeleteEv env (fun i => rfl) rfl (fun i => rfl)
    rfl rfl rfl
  have hcl := cleanupRun_countP_delete env
  have hnt := externalCancelNotify_countP_zero isDeleteEv env rfl (fun e => rfl)
  unfold missTrace
  cases hti : (innerTry env).2 with
  | ok oc => simp [List.countP_append, List.countP_cons, hin, hcl, isDeleteEv]
  | error e =>
    by_cases hfh : isFetchHandled e
    · simp [hfh, List.countP_append, List.countP_cons, hin, hcl, hnt, isDeleteEv]
    · by_cases hpl : e = Err.progressLost
      · simp [isFetchHandled, hpl, List.countP_append, List.countP_cons, hin, hcl, isDeleteEv]
      · by_cases hcc : e = Err.cancelled
        · simp [isFetchHandled, hpl, hcc, List.countP_append, List.countP_cons, hin, hcl, isDeleteEv]
        · by_cases hfl : (cleanupRun env).2
          · simp [hfh, hpl, hcc, hfl, List.countP_append, List.countP_cons,
              hin, hcl, isDeleteEv]
          · cases hn : env.notifyResult with
            | ok u =>
              simp [hfh, hpl, hcc, hfl, List.countP_append, List.countP_cons,
                hin, hcl, isDeleteEv]
            | error x =>
              cases x <;>
                simp [hfh, hpl, hcc, hfl, List.countP_append, List.countP_cons,
                  hin, hcl, isDeleteEv]

/-- The terminal outcome of runTask, by cache branch. -/
theorem runTask_snd (env : TaskEnv) :
    (runTask env).2 =
      (match cachedFileId env, env.sendCachedResult with
       | some _, .ok _ => Outcome.cachedDelivered
       | some _, .error .cancelled => Outcome.canceled
       | some _, .error _ => missOutcome env (cleanupRun env).2
       | none, _ => missOutcome env (cleanupRun env).2) := by
  unfold runTask longTask missPath
  cases hc : cachedFileId env with
  | none => rfl
  | some f =>
    cases hs : env.sendCachedResult with
    | ok u => rfl
    | error e => cases e <;> rfl

/-- The task outcome does not depend on the delete_messages result, as
long as the deletion fails with an Exception rather than a cancellation. -/
theorem cleanupRun_flag_false (env : TaskEnv) (d : Except Err Unit)
    (hd : d ≠ Except.error Err.cancelled) :
    (cleanupRun { env with deleteResult := d }).2 = false := by
  unfold cleanupRun
  by_cases h : msgLiveAfterFetch { env with deleteResult := d }
  · simp only [h, if_true]
    cases d with
    | ok u => rfl
    | error e => cases e <;> simp_all
  · simp [h]

/-- Claim C4: for every task, whatever terminal state it reaches, cleanup
runs exactly once: the registry deregistration occurs exactly once in
every trace, delete_messages is called exactly once when the task entered
the cache-miss body and the progress message reference is live (and never
otherwise, in particular never twice), and a deletion failure by an
Exception is tolerated: it does not change the terminal outcome. -/
theorem c4_cleanup_exactly_once (env : TaskEnv) :
    List.countP isDeregisterEv (runTask env).1 = 1 ∧
    List.countP isDeleteEv (runTask env).1
      = (if wentMiss env && msgLiveAfterFetch env then 1 else 0) ∧
    (∀ x : Err, x ≠ Err.cancelled →
      (runTask { env with deleteResult := Except.error x }).2
        = (runTask { env with deleteResult := Except.ok () }).2) := by
  refine ⟨?_, ?_, ?_⟩
  · have hm := missTrace_countP_zero isDeregisterEv env (fun i => rfl) rfl (fun i => rfl)
      rfl rfl rfl rfl (fun e => rfl) rfl
    unfold runTask longTask missPath
    cases hc : cachedFileId env with
    | none => simp [List.countP_append, List.countP_cons, hm, isDeregisterEv]
    | some f =>
      cases hs : env.sendCachedResult with
      | ok u => simp [isDeregisterEv]
      | error e =>
        cases e <;> simp [List.countP_append, List.countP_cons, hm, isDeregisterEv]
  · have hm := missTrace_countP_delete env
    unfold runTask longTask missPath wentMiss
    cases hc : cachedFileId env with
    | none => simp [List.countP_append, List.countP_cons, hm, isDeleteEv]
    | some f =>
      cases hs : env.sendCachedResult with
      | ok u => simp [isDeleteEv]
      | error e =>
        cases e <;> simp [List.countP_append, List.countP_cons, hm, isDeleteEv]
  · intro x hx
    have h1 := cleanupRun_flag_false env (Except.error x) (by simpa using hx)
    have h2 := cleanupRun_flag_false env (Except.ok ()) (by simp)
    rw [runTask_snd, runTask_snd, h1, h2]
    rfl

/-- Witness for claim C4 at the baseline environment. -/
theorem c4_witness :
    List.countP isDeregisterEv (runTask baseEnv).1 = 1 ∧
    List.countP isDeleteEv (runTask baseEnv).1
      = (if wentMiss baseEnv && msgLiveAfterFetch baseEnv then 1 else 0) ∧
    (∀ x : Err, x ≠ Err.cancelled →
      (runTask { baseEnv with deleteResult := Except.error x }).2
        = (runTask { baseEnv with deleteResult := Except.ok () }).2) :=
  c4_cleanup_exactly_once baseEnv

/-- Claim C6: the fetch phase makes between 1 and 3 attempts, waits a
fixed 5 seconds between consecutive attempts, retries only failures
satisfying the transient TemporaryError classification, and the outcome
of the final attempt made — in particular the third failure, or any
failure not classified transient — propagates unchanged, without
wrapping. -/
theorem c6_fetch_retry_policy (env : TaskEnv) :
    1 ≤ fetchAttemptsMade env ∧ fetchAttemptsMade env ≤ 3 ∧
    List.countP isWaitEv (fetchPhase env).1 = fetchAttemptsMade env - 1 ∧
    (∀ s, Event.wait s ∈ (fetchPhase env).1 → s = 5) ∧
    (∀ i, i + 1 < fetchAttemptsMade env →
      ∃ e, (env.attempt i).result = Except.error e ∧ isTemporary e = true) ∧
    (∀ e, (fetchPhase env).2 = Except.error e →
      (env.attempt (fetchAttemptsMade env - 1)).result = Except.error e) := by
  rcases h0 : (env.attempt 0).result with e0 | a0
  · by_cases ht0 : isTemporary e0 = true
    · rcases h1 : (env.attempt 1).result with e1 | a1
      · by_cases ht1 : isTemporary e1 = true
        · rcases h2 : (env.attempt 2).result with e2 | a2
          · have hfp : fetchPhase env =
                ([Event.fetchAttempt 0, Event.wait 5, Event.fetchAttempt 1,
                  Event.wait 5, Event.fetchAttempt 2], Except.error e2) := by
              simp [fetchPhase, retryRun, Except.map, h0, ht0, h1, ht1, h2]
            have hn : fetchAttemptsMade env = 3 := by
              unfold fetchAttemptsMade; rw [hfp]; rfl
            refine ⟨by omega, by omega, ?_, ?_, ?_, ?_⟩
            · rw [hfp, hn]; rfl
            · intro s hs; rw [hfp] at hs; simp at hs; omega
            · intro i hi
              rw [hn] at hi
              rcases i with _ | _ | i
              · exact ⟨e0, h0, ht0⟩
              · exact ⟨e1, h1, ht1⟩
              · omega
            · intro e he
              rw [hfp] at he
              simp at he
              rw [hn, h2, he]
          · have hfp : fetchPhase env =
                ([Event.fetchAttempt 0, Event.wait 5, Event.fetchAttempt 1,
                  Event.wait 5, Event.fetchAttempt 2], Except.ok a2.flatten) := by
              simp [fetchPhase, retryRun, Except.map, h0, ht0, h1, ht1, h2]
            have hn : fetchAttemptsMade env = 3 := by
              unfold fetchAttemptsMade; rw [hfp]; rfl
            refine ⟨by omega, by omega, ?_, ?_, ?_, ?_⟩
            · rw [hfp, hn]; rfl
            · intro s hs; rw [hfp] at hs; simp at hs; omega
            · intro i hi
              rw [hn] at hi
              rcases i with _ | _ | i
              · exact ⟨e0, h0, ht0⟩
              · exact ⟨e1, h1, ht1⟩
              · omega
            · intro e he
              rw [hfp] at he
              simp at he
        · have hfp : fetchPhase env =
              ([Event.fetchAttempt 0, Event.wait 5, Event.fetchAttempt 1],
                Except.error e1) := by
            simp [fetchPhase, retryRun, Except.map, h0, ht0, h1, ht1]
          have hn : fetchAttemptsMade env = 2 := by
            unfold fetchAttemptsMade; rw [hfp]; rfl
          refine ⟨by omega, by omega, ?_, ?_, ?_, ?_⟩
          · rw [hfp, hn]; rfl
          · intro s hs; rw [hfp] at hs; simp at hs; omega
          · intro i hi
            rw [hn] at hi
            rcases i with _ | i
            · exact ⟨e0, h0, ht0⟩
            · omega
          · intro e he
            rw [hfp] at he
            simp at he
            rw [hn, h1, he]
      · have hfp : fetchPhase env =
            ([Event.fetchAttempt 0, Event.wait 5, Event.fetchAttempt 1],
              Except.ok a1.flatten) := by
          simp [fetchPhase, retryRun, Except.map, h0, ht0, h1]
        have hn : fetchAttemptsMade env = 2 := by
          unfold fetchAttemptsMade; rw [hfp]; rfl
        refine ⟨by omega, by omega, ?_, ?_, ?_, ?_⟩
        · rw [hfp, hn]; rfl
        · intro s hs; rw [hfp] at hs; simp at hs; omega
        · intro i hi
          rw [hn] at hi
          rcases i with _ | i
          · exact ⟨e0, h0, ht0⟩
          · omega
        · intro e he
          rw [hfp] at he
          simp at he
    · have hfp : fetchPhase env = ([Event.fetchAttempt 0], Except.error e0) := by
        simp [fetchPhase, retryRun, Except.map, h0, ht0]
      have hn : fetchAttemptsMade env = 1 := by
        unfold fetchAttemptsMade; rw [hfp]; rfl
      refine ⟨by omega, by omega, ?_, ?_, ?_, ?_⟩
      · rw [hfp, hn]; rfl
      · intro s hs; rw [hfp] at hs; simp at hs
      · intro i hi; rw [hn] at hi; omega
      · intro e he
        rw [hfp] at he
        simp at he
        rw [hn, h0, he]
  · have hfp : fetchPhase env = ([Event.fetchAttempt 0], Except.ok a0.flatten) := by
      simp [fetchPhase, retryRun, Except.map, h0]
    have hn : fetchAttemptsMade env = 1 := by
      unfold fetchAttemptsMade; rw [hfp]; rfl
    refine ⟨by omega, by omega, ?_, ?_, ?_, ?_⟩
    · rw [hfp, hn]; rfl
    · intro s hs; rw [hfp] at hs; simp at hs
    · intro i hi; rw [hn] at hi; omega
    · intro e he
      rw [hfp] at he
      simp at he

/-- Witness for claim C6 at an environment whose first attempt fails with
ServiceUnavailableError and whose second succeeds. -/
theorem c6_witness :
    1 ≤ fetchAttemptsMade envC6w ∧ fetchAttemptsMade envC6w ≤ 3 ∧
    List.countP isWaitEv (fetchPhase envC6w).1 = fetchAttemptsMade envC6w - 1 ∧
    (∀ s, Event.wait s ∈ (fetchPhase envC6w).1 → s = 5) ∧
    (∀ i, i + 1 < fetchAttemptsMade envC6w →
      ∃ e, (envC6w.attempt i).result = Except.error e ∧ isTemporary e = true) ∧
    (∀ e, (fetchPhase envC6w).2 = Except.error e →
      (envC6w.attempt (fetchAttemptsMade envC6w - 1)).result = Except.error e) :=
  c6_fetch_retry_policy envC6w

/-- On a cache miss, the task runs the miss body followed by the
deregistration. -/
theorem runTask_miss (env : TaskEnv) (hmiss : cachedFileId env = none) :
    runTask env = ((missPath env).1 ++ [Event.deregister], (missPath env).2) := by
  unfold runTask longTask
  rw [hmiss]

/-- The finally block does not raise a cancellation when delete_messages
does not fail with one. -/
theorem cleanupRun_snd_false (env : TaskEnv)
    (hdel : env.deleteResult ≠ Except.error Err.cancelled) :
    (cleanupRun env).2 = false := by
  unfold cleanupRun
  by_cases h : msgLiveAfterFetch env
  · simp only [h, if_true]
    cases hd : env.deleteResult with
    | ok u => rfl
    | error e => cases e <;> simp_all
  · simp [h]

/-- Claim C7: in every execution, a lost-UI-message signal never causes a
failure notification and never triggers a retry; the task ends silently as
user-canceled. Whenever the try body of the cache-miss path raises
ProgressBarLostMessageError the outcome is userCanceled and no maintenance
notification occurs in the trace, and both retry loops stop at any attempt
raising the lost signal, because neither retry predicate classifies it as
retryable. -/
theorem c7_lost_message_silent (env : TaskEnv)
    (hmiss : cachedFileId env = none)
    (hdel : env.deleteResult ≠ Except.error Err.cancelled) :
    ((innerTry env).2 = Except.error Err.progressLost →
      (runTask env).2 = Outcome.userCanceled ∧
      Event.notifyMaintenance ∉ (runTask env).1) ∧
    (∀ i r, (env.attempt i).result = Except.error Err.progressLost →
      retryRun isTemporary [Event.wait 5] Event.fetchAttempt
        (fun j => (env.attempt j).result) i r
        = ([Event.fetchAttempt i], Except.error Err.progressLost)) ∧
    (∀ i r, env.upload i = Except.error Err.progressLost →
      retryRun isSendRetryable [] Event.sendFileBytes env.upload i r
        = ([Event.sendFileBytes i], Except.error Err.progressLost)) := by
  have hflag := cleanupRun_snd_false env hdel
  refine ⟨?_, ?_, ?_⟩
  · intro hlost
    have hmt : missTrace env
        = Event.mkProgressBar :: (innerTry env).1 ++ (cleanupRun env).1 := by
      unfold missTrace
      rw [hlost]
      simp [isFetchHandled]
    constructor
    · rw [runTask_miss env hmiss]
      show (missPath env).2 = Outcome.userCanceled
      unfold missPath missOutcome
      rw [hlost]
      simp [isFetchHandled, hflag]
    · rw [runTask_miss env hmiss]
      intro hmem
      have hin := innerTry_countP_zero isNotifyEv env (fun i => rfl) rfl (fun i => rfl)
        rfl rfl rfl
      have hcl := cleanupRun_countP_zero isNotifyEv env rfl (fun e => rfl)
      have h0 : List.countP isNotifyEv ((missPath env).1 ++ [Event.deregister]) = 0 := by
        simp [missPath, hmt, List.countP_append, List.countP_cons, hin, hcl, isNotifyEv]
      have hq := List.countP_eq_zero.mp h0 _ hmem
      simp [isNotifyEv] at hq
  · intro i r h
    exact retryRun_stop _ _ _ _ i r _ h rfl
  · intro i r h
    exact retryRun_stop _ _ _ _ i r _ h rfl

/-- Witness for claim C7: the first fetch attempt raises the lost-message
signal; the task ends user-canceled, sends no maintenance notification,
and the fetch retry loop stops after the single attempt. -/
theorem c7_witness :
    (runTask envC7w).2 = Outcome.userCanceled ∧
    Event.notifyMaintenance ∉ (runTask envC7w).1 ∧
    retryRun isTemporary [Event.wait 5] Event.fetchAttempt
      (fun j => (envC7w.attempt j).result) 0 2
      = ([Event.fetchAttempt 0], Except.error Err.progressLost) := by
  have h := c7_lost_message_silent envC7w rfl (fun hh => Except.noConfusion hh)
  have hl : (innerTry envC7w).2 = Except.error Err.progressLost := rfl
  exact ⟨(h.1 hl).1, (h.1 hl).2, h.2.1 0 2 rfl⟩

/-- Claim C1: on the cache-miss path, when the fetch phase propagates a
backend-unavailable error or the fetch domain error (after retries are
exhausted, or at once for a permanent failure), the task reaches the
FAILED terminal state and the requester is notified with the maintenance
message; a failure of that notification is swallowed and logged, never
re-raised (the run still terminates in FAILED with the failure logged). -/
theorem c1_fetch_failure_notifies (env : TaskEnv) (e : Err)
    (hmiss : cachedFileId env = none)
    (hdel : env.deleteResult ≠ Except.error Err.cancelled)
    (hfe : (fetchPhase env).2 = Except.error e)
    (hkind : e = Err.serviceUnavailable ∨ e = Err.downloadError) :
    (runTask env).2 = Outcome.failed ∧
    Event.notifyMaintenance ∈ (runTask env).1 ∧
    (∀ x, env.notifyResult = Except.error x →
      Event.errorLogged x ∈ (runTask env).1) := by
  have hflag := cleanupRun_snd_false env hdel
  have hit : (innerTry env).2 = Except.error e := by
    unfold innerTry
    rw [hfe]
  have hfh : isFetchHandled e = true := by
    rcases hkind with h | h <;> subst h <;> rfl
  have hmt : missTrace env
      = Event.mkProgressBar :: (innerTry env).1 ++ externalCancelNotify env
        ++ (cleanupRun env).1 := by
    unfold missTrace
    rw [hit]
    simp [hfh]
  refine ⟨?_, ?_, ?_⟩
  · rw [runTask_miss env hmiss]
    show (missPath env).2 = Outcome.failed
    unfold missPath missOutcome
    rw [hit]
    simp [hfh, hflag]
  · rw [runTask_miss env hmiss]
    have hnm : Event.notifyMaintenance ∈ externalCancelNotify env := by
      unfold externalCancelNotify
      cases env.notifyResult <;> simp
    show Event.notifyMaintenance ∈ (missPath env).1 ++ [Event.deregister]
    simp only [missPath, hmt, List.mem_append, List.mem_cons]
    tauto
  · intro x hx
    rw [runTask_miss env hmiss]
    have hlg : Event.errorLogged x ∈ externalCancelNotify env := by
      unfold externalCancelNotify
      rw [hx]
      simp
    show Event.errorLogged x ∈ (missPath env).1 ++ [Event.deregister]
    simp only [missPath, hmt, List.mem_append, List.mem_cons]
    tauto

/-- Witness for claim C1: the first fetch attempt raises the permanent
DownloadError and the maintenance notification itself fails; the task
still ends FAILED, the notification was attempted and its failure was
logged. -/
theorem c1_witness :
    (runTask envC1w).2 = Outcome.failed ∧
    Event.notifyMaintenance ∈ (runTask envC1w).1 ∧
    Event.errorLogged Err.other ∈ (runTask envC1w).1 := by
  have h := c1_fetch_failure_notifies envC1w Err.downloadError rfl
    (fun hh => Except.noConfusion hh) rfl (Or.inr rfl)
  exact ⟨h.1, h.2.1, h.2.2 Err.other rfl⟩

/-- Every event of the fetch-phase trace is an attempt entry or the fixed
5-second wait. -/
theorem fetchPhase_mem (env : TaskEnv) :
    ∀ x ∈ (fetchPhase env).1, (∃ j, x = Event.fetchAttempt j) ∨ x = Event.wait 5 := by
  intro x hx
  have h := retryRun_mem isTemporary [Event.wait 5] Event.fetchAttempt
    (fun i => (env.attempt i).result) 2 0 x (by simpa [fetchPhase] using hx)
  simpa using h

/-- Every event of the upload-phase trace is an upload attempt entry; in
particular the upload phase sends no new banner message. -/
theorem uploadPhase_mem (env : TaskEnv) :
    ∀ x ∈ (uploadPhase env).1, ∃ j, x = Event.sendFileBytes j := by
  intro x hx
  have h := retryRun_mem isSendRetryable [] Event.sendFileBytes env.upload 2 0 x
    (by simpa [uploadPhase] using hx)
  simpa using h

/-- Every event of the cleanup trace is the deletion call or a log entry. -/
theorem cleanupRun_mem (env : TaskEnv) :
    ∀ x ∈ (cleanupRun env).1,
      x = Event.deleteMessages ∨ ∃ e, x = Event.errorLogged e := by
  unfold cleanupRun
  by_cases h : msgLiveAfterFetch env
  · simp only [h, if_true]
    cases hd : env.deleteResult with
    | ok u => intro x hx; simp at hx; exact Or.inl hx
    | error e =>
      cases e <;>
        (intro x hx
         simp at hx
         first
         | exact Or.inl hx
         | rcases hx with h1 | h1 <;> first | exact Or.inl h1 | exact Or.inr ⟨_, h1⟩)
  · simp [h]

/-- Counterexample to claim C2: the fetch returns the very same value, the
empty byte string, both for a backend stream ending after zero chunks and
for a zero-length valid document streamed as one chunk of zero bytes — so
the result is not an absent marker distinct from a zero-length valid
document — and the orchestrator routes both runs to the NOT_FOUND
outcome, branching on the byte count of the result. -/
theorem c2_empty_fetch_counterexample :
    (fetchPhase envC2a).2 = Except.ok [] ∧
    (fetchPhase envC2b).2 = Except.ok [] ∧
    (fetchPhase envC2a).2 = (fetchPhase envC2b).2 ∧
    (runTask envC2a).2 = Outcome.notFound ∧
    (runTask envC2b).2 = Outcome.notFound :=
  ⟨rfl, rfl, rfl, rfl, rfl⟩

/-- Claim C2 (amended): when the backend stream yields zero bytes without
error, the fetch returns the empty byte string — the same value as for a
zero-length valid document — and the orchestrator branches on the
emptiness of the returned bytes, yielding the NOT_FOUND outcome: the
sources-unavailable response is sent and no upload attempt and no cache
write occurs. -/
theorem c2_empty_fetch_not_found (env : TaskEnv)
    (hmiss : cachedFileId env = none)
    (hdel : env.deleteResult ≠ Except.error Err.cancelled)
    (hfe : (fetchPhase env).2 = Except.ok [])
    (hnf : env.notFoundResult = Except.ok ()) :
    (runTask env).2 = Outcome.notFound ∧
    Event.respondNotFound ∈ (runTask env).1 ∧
    (∀ i, Event.sendFileBytes i ∉ (runTask env).1) ∧
    Event.putCache ∉ (runTask env).1 := by
  have hflag := cleanupRun_snd_false env hdel
  have hit2 : (innerTry env).2 = Except.ok Outcome.notFound := by
    unfold innerTry
    rw [hfe, hnf]
    rfl
  have hit1 : (innerTry env).1 = (fetchPhase env).1 ++ [Event.respondNotFound] := by
    unfold innerTry
    rw [hfe, hnf]
    rfl
  have hmt : missTrace env
      = Event.mkProgressBar :: (innerTry env).1 ++ (cleanupRun env).1 := by
    unfold missTrace
    rw [hit2]
  have htr : (runTask env).1
      = Event.mkProgressBar :: ((fetchPhase env).1 ++ [Event.respondNotFound])
        ++ (cleanupRun env).1 ++ [Event.deregister] := by
    rw [runTask_miss env hmiss]
    simp [missPath, hmt, hit1]
  refine ⟨?_, ?_, ?_, ?_⟩
  · rw [runTask_miss env hmiss]
    show (missPath env).2 = Outcome.notFound
    unfold missPath missOutcome
    rw [hit2]
    simp [hflag]
  · rw [htr]
    simp
  · intro i hmem
    rw [htr] at hmem
    simp at hmem
    rcases hmem with h | h
    · rcases fetchPhase_mem env _ h with ⟨j, hj⟩ | hj <;> simp at hj
    · rcases cleanupRun_mem env _ h with hj | ⟨e, hj⟩ <;> simp at hj
  · intro hmem
    rw [htr] at hmem
    simp at hmem
    rcases hmem with h | h
    · rcases fetchPhase_mem env _ h with ⟨j, hj⟩ | hj <;> simp at hj
    · rcases cleanupRun_mem env _ h with hj | ⟨e, hj⟩ <;> simp at hj

/-- Witness for claim C2 (amended) at the zero-chunk environment. -/
theorem c2_witness :
    (runTask envC2a).2 = Outcome.notFound ∧
    Event.respondNotFound ∈ (runTask envC2a).1 ∧
    (∀ i, Event.sendFileBytes i ∉ (runTask envC2a).1) ∧
    Event.putCache ∉ (runTask envC2a).1 :=
  c2_empty_fetch_not_found envC2a rfl (fun hh => Except.noConfusion hh) rfl rfl

/-- Counterexample to claim C3: the upload-phase ProgressBar is
constructed with last_call = progress_bar_download.last_call — the
throttle clock carried over from the download-phase reporter, not reset.
At a download bar whose clock still holds the start time 2, an upload bar
constructed at clock value 100 would hold 100 had the clock been reset,
but the constructed bar holds 2, differing from the spec-described one. -/
theorem c3_upload_bar_counterexample :
    (mkUploadBar pbC3 "f").lastCall = 2 ∧
    (mkUploadBarSpec pbC3 "f" 100).lastCall = 100 ∧
    mkUploadBar pbC3 "f" ≠ mkUploadBarSpec pbC3 "f" 100 ∧
    (mkUploadBar pbC3 "f").message = pbC3.message := by
  refine ⟨rfl, rfl, ?_, rfl⟩
  intro h
  have hc := congrArg ProgressBar.lastCall h
  simp [mkUploadBar, mkUploadBarSpec, pbC3, mkDownloadBar] at hc

/-- Claim C3 (amended): the upload-phase ProgressBar is constructed
reusing the same UI message reference as the download-phase reporter — and
the upload phase emits only upload attempts, never a new banner message —
with the phase-specific tail label changed, the same throttle interval,
and the throttle clock carried over from the download-phase reporter
rather than reset. -/
theorem c3_upload_bar_chained (pb : ProgressBar) (fn : String) (env : TaskEnv) :
    (mkUploadBar pb fn).message = pb.message ∧
    (mkUploadBar pb fn).lastCall = pb.lastCall ∧
    (mkUploadBar pb fn).tailText = "UPLOADED_TO_TELEGRAM" ∧
    (mkDownloadBar fn pb.lastCall).tailText = "TRANSMITTED_FROM" ∧
    (mkUploadBar pb fn).throttleSecs = (mkDownloadBar fn 0).throttleSecs ∧
    (∀ x ∈ (uploadPhase env).1, ∃ j, x = Event.sendFileBytes j) :=
  ⟨rfl, rfl, rfl, rfl, rfl, uploadPhase_mem env⟩

/-- Witness for claim C3 (amended) at the concrete chained bar. -/
theorem c3_witness :
    (mkUploadBar pbC3 "f").message = pbC3.message ∧
    (mkUploadBar pbC3 "f").lastCall = pbC3.lastCall ∧
    (mkUploadBar pbC3 "f").tailText = "UPLOADED_TO_TELEGRAM" ∧
    (mkDownloadBar "f" pbC3.lastCall).tailText = "TRANSMITTED_FROM" ∧
    (mkUploadBar pbC3 "f").throttleSecs = (mkDownloadBar "f" 0).throttleSecs ∧
    (∀ x ∈ (uploadPhase baseEnv).1, ∃ j, x = Event.sendFileBytes j) :=
  c3_upload_bar_chained pbC3 "f" baseEnv

/-- Counterexample to claim C5: with a cached delivery handle whose
delivery raises a generic Exception, the surrounding safe_execution
swallows the error, the skipped return lets the task fall through to the
full fetch and upload path, and so a fetch call occurs, a ProgressBar is
instantiated and bytes are uploaded — despite the cache hit. -/
theorem c5_cache_hit_counterexample :
    cachedFileId envC5x = some 7 ∧
    Event.fetchAttempt 0 ∈ (runTask envC5x).1 ∧
    Event.mkProgressBar ∈ (runTask envC5x).1 ∧
    Event.sendFileBytes 0 ∈ (runTask envC5x).1 := by
  refine ⟨rfl, ?_, ?_, ?_⟩ <;> decide

/-- Claim C5 (amended): for every request whose content-address has a
cached delivery handle and whose cached-handle delivery succeeds, the task
delivers the cached handle directly and terminates: the whole trace is the
single cached delivery followed by deregistration, so no fetch call, no
byte upload and no ProgressBar construction occurs. -/
theorem c5_cache_hit_fast_path (env : TaskEnv) (f : Nat)
    (hc : cachedFileId env = some f)
    (hs : env.sendCachedResult = Except.ok ()) :
    (runTask env).1 = [Event.sendCached, Event.deregister] ∧
    (runTask env).2 = Outcome.cachedDelivered := by
  have h : longTask env = ([Event.sendCached], Outcome.cachedDelivered) := by
    unfold longTask
    rw [hc, hs]
  constructor
  · show (longTask env).1 ++ [Event.deregister] = _
    rw [h]
    rfl
  · show (longTask env).2 = _
    rw [h]

/-- Witness for claim C5 (amended): cache hit with a succeeding delivery. -/
theorem c5_witness :
    (runTask envC5w).1 = [Event.sendCached, Event.deregister] ∧
    (runTask envC5w).2 = Outcome.cachedDelivered :=
  c5_cache_hit_fast_path envC5w 7 rfl rfl

/-- Counterexample to claim C10: on the cache-hit fast path with a failing
cached delivery, the task does not terminate after swallowing the error:
it falls through to the full fetch and upload path and ends in the
uploaded outcome, with a fetch attempt and a byte upload in the trace. -/
theorem c10_cached_delivery_failure_counterexample :
    cachedFileId envC10x = some 3 ∧
    (runTask envC10x).2 = Outcome.uploaded ∧
    Event.fetchAttempt 0 ∈ (runTask envC10x).1 ∧
    Event.sendFileBytes 0 ∈ (runTask envC10x).1 := by
  refine ⟨rfl, rfl, ?_, ?_⟩ <;> decide

/-- Claim C10 (amended): on the cache-hit fast path, when delivering the
cached handle fails with an Exception, the error is swallowed and logged
only — no failure message is sent at that point — and the task falls
through to the normal fetch/upload path: the trace is the cached delivery
attempt, the logged error, then exactly the cache-miss body followed by
deregistration, and the outcome is that of the cache-miss body. -/
theorem c10_cached_delivery_failure_fallthrough (env : TaskEnv) (f : Nat) (e : Err)
    (hc : cachedFileId env = some f)
    (hs : env.sendCachedResult = Except.error e)
    (he : e ≠ Err.cancelled) :
    (runTask env).1
      = Event.sendCached :: Event.errorLogged e :: (missPath env).1
        ++ [Event.deregister] ∧
    (runTask env).2 = (missPath env).2 := by
  have h : longTask env
      = (Event.sendCached :: Event.errorLogged e :: (missPath env).1,
          (missPath env).2) := by
    unfold longTask
    rw [hc, hs]
    cases e <;> simp_all
  constructor
  · show (longTask env).1 ++ [Event.deregister] = _
    rw [h]
  · show (longTask env).2 = _
    rw [h]

/-- Witness for claim C10 (amended): client-cache hit whose delivery
fails with a generic Exception. -/
theorem c10_witness :
    (runTask envC10x).1
      = Event.sendCached :: Event.errorLogged Err.other :: (missPath envC10x).1
        ++ [Event.deregister] ∧
    (runTask envC10x).2 = (missPath envC10x).2 :=
  c10_cached_delivery_failure_fallthrough envC10x 3 Err.other rfl rfl
    (fun hh => Err.noConfusion hh)

/-- Counterexample to claim C8: with a live duplicate task, when the
duplicate answer raises, the safe_execution swallows the failure, the
return is skipped, and the handler falls through to schedule a second
task for the same task key. -/
theorem c8_duplicate_counterexample :
    hEnvC8x.hasTask = true ∧
    (handler hEnvC8x).2 = Except.ok true ∧
    Event.scheduleTask ∈ (handler hEnvC8x).1 := by
  refine ⟨rfl, rfl, ?_⟩
  decide

/-- Claim C8 (amended): for every incoming request whose task key already
has a live task, provided the duplicate answer and the button removal
succeed, the handler answers that the download is already in progress and
returns before any task is constructed or scheduled: the trace is exactly
the duplicate answer and the button removal. -/
theorem c8_duplicate_rejected (env : HandlerEnv)
    (h : env.hasTask = true)
    (ha : env.answerDupResult = Except.ok ())
    (hr : env.removeBtnDupResult = Except.ok ()) :
    handler env = ([Event.answerAlready, Event.removeButton], Except.ok false) := by
  simp [handler, h, ha, hr]

/-- Witness for claim C8 (amended): duplicate task, all calls succeed,
even with the rate limit hit the handler stops at the duplicate answer. -/
theorem c8_witness :
    handler hEnvC8w = ([Event.answerAlready, Event.removeButton], Except.ok false) :=
  c8_duplicate_rejected hEnvC8w rfl rfl rfl

/-- Counterexample to claim C9: with a live duplicate task and a
rate-limited user, when the duplicate answer raises, the handler does
consult hit_limits and sends the rate-limit response — the duplicate
check does not shield the rate-limit check on this path. -/
theorem c9_duplicate_before_limits_counterexample :
    hEnvC9x.hasTask = true ∧
    hEnvC9x.hitLimits = true ∧
    Event.checkLimits ∈ (handler hEnvC9x).1 ∧
    Event.answerTooMany ∈ (handler hEnvC9x).1 := by
  refine ⟨rfl, rfl, ?_, ?_⟩ <;> decide

/-- Claim C9 (amended): the duplicate-task check is evaluated before the
rate-limit check: for every request whose task key already has a live
task, provided the duplicate answer and the button removal succeed, the
handler returns after the duplicate answer without consulting hit_limits,
so no rate-limit response is sent and no task is scheduled. -/
theorem c9_duplicate_before_limits (env : HandlerEnv)
    (h : env.hasTask = true)
    (ha : env.answerDupResult = Except.ok ())
    (hr : env.removeBtnDupResult = Except.ok ()) :
    Event.checkLimits ∉ (handler env).1 ∧
    Event.answerTooMany ∉ (handler env).1 ∧
    Event.scheduleTask ∉ (handler env).1 ∧
    (handler env).2 = Except.ok false := by
  have htr : handler env
      = ([Event.answerAlready, Event.removeButton], Except.ok false) := by
    simp [handler, h, ha, hr]
  rw [htr]
  refine ⟨?_, ?_, ?_, rfl⟩ <;> simp

/-- Witness for claim C9 (amended): duplicate task of a rate-limited user
whose duplicate branch succeeds. -/
theorem c9_witness :
    Event.checkLimits ∉ (handler hEnvC9w).1 ∧
    Event.answerTooMany ∉ (handler hEnvC9w).1 ∧
    Event.scheduleTask ∉ (handler hEnvC9w).1 ∧
    (handler hEnvC9w).2 = Except.ok false :=
  c9_duplicate_before_limits hEnvC9w rfl rfl rfl

end Stc
